import Mathlib

/-!
Verification of the reproducible-build orchestrator in
`risc0/build/src/docker.rs` against its design specification.

The Rust code is shallowly embedded: pure string and path computations are
translated directly; effectful orchestration steps (`docker_build`,
`ensure_docker_is_running`, `compute_image_id`) are translated as functions
over an explicit world record describing the outcomes of external calls
(environment variables, the `which` lookup, subprocess exit statuses, the
filesystem, the external loader), returning a result together with a trace of
the externally observable events.  Rust `PathBuf::join` is modelled on strings
with a `/` separator; `anyhow` errors are modelled as a message with optional
context.
-/

/- ### String utilities -/

/-- Sliding-window substring test on character lists. -/
def containsSub : List Char → List Char → Bool
  | _, [] => true
  | [], _ :: _ => false
  | c :: rest, p :: ps => (List.isPrefixOf (p :: ps) (c :: rest)) || containsSub rest (p :: ps)

/-- `strContains s pat` holds when `pat` occurs as a contiguous substring of `s`. -/
def strContains (s pat : String) : Bool := containsSub s.data pat.data

/-- Split a character list on a separator character. -/
def splitOnChar (sep : Char) : List Char → List (List Char)
  | [] => [[]]
  | c :: rest =>
    let r := splitOnChar sep rest
    if c = sep then [] :: r
    else
      match r with
      | [] => [[c]]
      | h :: t => (c :: h) :: t

/-- The non-empty lines of a string (an exclusion-list file, one pattern per line). -/
def ignoreLines (s : String) : List String :=
  ((splitOnChar (Char.ofNat 10) s.data).map (fun l => String.mk l)).filter (fun l => l ≠ "")

/-- Rust `str::replace('-', "_")`: replace every dash with an underscore. -/
def dashToUnderscore (c : Char) : Char := if c = '-' then '_' else c

/-- `pkg_name.replace('-', "_")` from `docker.rs`. -/
def replaceDashUnderscore (s : String) : String := String.mk (s.data.map dashToUnderscore)

/-- Rust `Path::join` with a relative right argument, modelled on strings. -/
def pathJoin (a b : String) : String := a ++ "/" ++ b

/-- Uppercase hexadecimal digit. -/
def hexDigit (n : Nat) : Char :=
  if n < 10 then Char.ofNat (48 + n) else Char.ofNat (55 + n)

/-- Rust format specifier `{:08X}`: eight-digit zero-padded uppercase hex. -/
def toHex8 (n : Nat) : String :=
  String.mk ((List.range 8).map (fun i => hexDigit (n / 16 ^ (7 - i) % 16)))

/- ### Constants from `docker.rs` -/

/-- The `TARGET_DIR` constant of `docker.rs`: the fixed relative output directory. -/
def TARGET_DIR : String := "target/riscv-guest/riscv32im-risc0-zkvm-elf/docker"

/-- The `DOCKER_IGNORE` constant of `docker.rs`: the exclusion list written next to
the synthesized Dockerfile. -/
def DOCKER_IGNORE : String :=
  "\n**/Dockerfile\n**/.git\n**/node_modules\n**/target\n**/tmp\n"

/-- Modelled from the spec: the fixed numeric link base address `TEXT_START` comes
from the external `risc0-zkvm-platform` crate, which is not part of this
repository; the spec only requires it to be a fixed numeric constant. -/
def TEXT_START : Nat := 0x00200800

/- ### Artifact resolver (`get_elf_path`) -/

/-- `get_elf_path` from `docker.rs`: join the source root, the fixed output
directory, the package name with dashes replaced by underscores, and the
target name. -/
def get_elf_path (src_dir pkg_name target_name : String) : String :=
  pathJoin (pathJoin (pathJoin src_dir TARGET_DIR) (replaceDashUnderscore pkg_name)) target_name

/- ### Build descriptor synthesizer (`create_dockerfile`) -/

/-- One instruction of the `docker_generate::DockerFile` builder used by
`create_dockerfile`. -/
inductive Instr where
  | fromAlias (stageName : String) (base : String)
  | workdir (dir : String)
  | copy (src : String) (dst : String)
  | copyFrom (stage : String) (src : String) (dst : String)
  | env (bindings : List (String × String))
  | runCommand (cmd : String)
  | comment (text : String)
deriving DecidableEq

/-- The `RUSTFLAGS` string built in `create_dockerfile`. -/
def rustflags : String :=
  "-C passes=loweratomic -C link-arg=-Ttext=0x" ++ toHex8 TEXT_START ++
    " -C link-arg=--fatal-warnings"

/-- The `common_args` vector of `create_dockerfile`. -/
def common_args : List String :=
  ["--locked", "--target", "riscv32im-risc0-zkvm-elf", "--manifest-path",
   "$CARGO_MANIFEST_PATH"]

/-- The `build_args` vector of `create_dockerfile`: `common_args` plus, when the
feature list is non-empty, a `--features` flag with the comma-joined list. -/
def build_args (features : List String) : List String :=
  common_args ++
    (if features.isEmpty then [] else ["--features", String.intercalate "," features])

/-- The dependency-fetch command of `create_dockerfile`. -/
def fetch_cmd : String :=
  String.intercalate " " (["cargo", "+risc0", "fetch"] ++ common_args)

/-- The compile command of `create_dockerfile`. -/
def build_cmd (features : List String) : String :=
  String.intercalate " " (["cargo", "+risc0", "build", "--release"] ++ build_args features)

/-- `create_dockerfile` from `docker.rs`, returning the instruction sequence of the
written Dockerfile together with the contents of the written
`Dockerfile.dockerignore` (the two `fs::write` calls target a fresh temporary
directory; the written contents are returned directly). -/
def create_dockerfile (manifest_path : String) (pkg_name : String)
    (features : List String) : List Instr × String :=
  let manifest_env := [("CARGO_MANIFEST_PATH", manifest_path)]
  let rustflags_env := [("RUSTFLAGS", rustflags)]
  let buildStage : List Instr :=
    [Instr.fromAlias "build" "risczero/risc0-guest-builder:v2024-02-08.1",
     Instr.workdir "/src",
     Instr.copy "." ".",
     Instr.env manifest_env,
     Instr.env rustflags_env,
     Instr.env [("CARGO_TARGET_DIR", "target")],
     Instr.runCommand fetch_cmd,
     Instr.runCommand (build_cmd features)]
  let out_dir := "/" ++ pkg_name
  let exportStage : List Instr :=
    [Instr.comment "export stage",
     Instr.fromAlias "export" "scratch",
     Instr.copyFrom "build" "/src/target/riscv32im-risc0-zkvm-elf/release" out_dir]
  (buildStage ++ exportStage, DOCKER_IGNORE)

/-- The instructions of one stage: everything after the `FROM` line introducing
the alias, up to the next `FROM` line. -/
def takeStage : List Instr → List Instr
  | [] => []
  | Instr.fromAlias _ _ :: _ => []
  | i :: rest => i :: takeStage rest

/-- Select the body of the stage with the given alias. -/
def stageInstrs (stageName : String) : List Instr → List Instr
  | [] => []
  | Instr.fromAlias a _ :: rest =>
    if a = stageName then takeStage rest else stageInstrs stageName rest
  | _ :: rest => stageInstrs stageName rest

/-- All environment-variable bindings of an instruction sequence, in order. -/
def envBindings (l : List Instr) : List (String × String) :=
  l.foldr (fun i acc => match i with | Instr.env bs => bs ++ acc | _ => acc) []

/-- All shell commands of an instruction sequence, in order. -/
def runCommands (l : List Instr) : List String :=
  l.filterMap (fun i => match i with | Instr.runCommand c => some c | _ => none)

/- ### Scratch checks for the pure synthesizer (removed in the theorems below) -/

example : build_cmd ["a", "b"] =
    "cargo +risc0 build --release --locked --target riscv32im-risc0-zkvm-elf --manifest-path $CARGO_MANIFEST_PATH --features a,b" := by
  decide

example : strContains (build_cmd ["a", "b"]) "--features a,b" = true := by decide

example : strContains (build_cmd []) "--features" = false := by decide

example : ignoreLines DOCKER_IGNORE =
    ["**/Dockerfile", "**/.git", "**/node_modules", "**/target", "**/tmp"] := by decide

example (root : String) :
    get_elf_path root "my-pkg" "my_bin" =
      root ++ "/target/riscv-guest/riscv32im-risc0-zkvm-elf/docker/my_pkg/my_bin" := by
  simp only [get_elf_path, pathJoin, String.append_assoc]
  rfl

/- ### Readiness prober (`check_docker`, `ensure_docker_is_running`) -/

/-- The outcomes of the external calls made by `ensure_docker_is_running`:
whether `which("docker")` locates the engine binary on the host, and the exit
status of the n-th `docker version` probe. -/
structure ProbeWorld where
  whichDocker : Bool
  probeOk : Nat → Bool

/-- The two terminal failures of the readiness phase: the engine command cannot
be located on the host at all (`which` failed), or the engine never answered a
probe within the elapsed-time budget. -/
inductive EngineError where
  | notFound
  | notRunning
deriving DecidableEq

/-- Modelled from the spec: the retry loop of the external `backoff` crate used
by `check_docker` — a bounded loop tracking cumulative elapsed time against a
budget, with exponentially increasing sleep between attempts, giving up when
the next sleep would exceed the budget.  Arguments: remaining fuel (a bound on
the iteration count, immaterial whenever it is at least `budget + 1` since
every failed attempt advances elapsed time by at least one unit), the attempt
index, the elapsed time, and the current sleep interval.  Returns (success,
number of probes made, total elapsed time). -/
def retryBackoff (probe : Nat → Bool) (budget : Nat) :
    Nat → Nat → Nat → Nat → Bool × Nat × Nat
  | fuel, n, elapsed, interval =>
    if probe n then (true, n + 1, elapsed)
    else
      match fuel with
      | 0 => (false, n + 1, elapsed)
      | fuel' + 1 =>
        if elapsed + max 1 interval ≤ budget then
          retryBackoff probe budget fuel' (n + 1) (elapsed + max 1 interval)
            (2 * max 1 interval)
        else (false, n + 1, elapsed)

/-- The initial backoff interval in milliseconds (the `backoff` crate default). -/
def INITIAL_INTERVAL : Nat := 500

/-- `check_docker` from `docker.rs`: retry the `docker version` probe with
exponential backoff bounded by `max_elapsed_time` (milliseconds); any outcome
other than an eventual successful probe is the `notRunning` error.  Returns the
result together with the number of probes made and the elapsed time. -/
def check_docker (probe : Nat → Bool) (max_elapsed_time : Nat) :
    Except EngineError Unit × Nat × Nat :=
  let r := retryBackoff probe max_elapsed_time (max_elapsed_time + 1) 0 0 INITIAL_INTERVAL
  (if r.1 then Except.ok () else Except.error EngineError.notRunning, r.2)

/-- `ensure_docker_is_running` from `docker.rs`: locate the engine binary with
`which("docker")` — failure is immediate, with no probe — then run
`check_docker` with a five-second budget.  Returns the result together with the
number of probes made and the elapsed time. -/
def ensure_docker_is_running (w : ProbeWorld) : Except EngineError Unit × Nat × Nat :=
  if w.whichDocker then check_docker w.probeOk 5000
  else (Except.error EngineError.notFound, 0, 0)

/- ### Identifier computer (`compute_image_id`) -/

/-- An `anyhow` error: either a bare propagated message, or a message wrapped by
`.context(note)`. -/
inductive AnyhowError where
  | raw (msg : String)
  | context (note : String) (cause : String)
deriving DecidableEq

/-- The rendered message of an `anyhow` error (context first, then the cause). -/
def renderError : AnyhowError → String
  | AnyhowError.raw m => m
  | AnyhowError.context n c => n ++ ": " ++ c

/-- The outcomes of the external calls made by `compute_image_id`: `fs::read`
on a path, `Program::load_elf` (the external loader, closed over the fixed
`GUEST_MAX_MEM` bound), `MemoryImage::new` (the external canonical-memory
construction, closed over the fixed `PAGE_SIZE`), and `compute_id` (the
external infallible content-identifier reduction).  Program and image handles
are abstract. -/
structure IdWorld where
  read : String → Except String (List Nat)
  load_elf : List Nat → Except String Nat
  memory_image_new : Nat → Except String Nat
  compute_id : Nat → String

/-- `compute_image_id` from `docker.rs`: read the file's bytes (a read failure
is propagated unchanged by `?`), invoke the loader (failure wrapped with
context `unable to load elf`), invoke the canonical-memory construction
(failure wrapped with context `unable to create memory image`), then reduce to
the identifier string. -/
def compute_image_id (w : IdWorld) (elf_path : String) : Except AnyhowError String :=
  match w.read elf_path with
  | Except.error e => Except.error (AnyhowError.raw e)
  | Except.ok elf =>
    match w.load_elf elf with
    | Except.error e => Except.error (AnyhowError.context "unable to load elf" e)
    | Except.ok program =>
      match w.memory_image_new program with
      | Except.error e =>
        Except.error (AnyhowError.context "unable to create memory image" e)
      | Except.ok image => Except.ok (w.compute_id image)

/- ### The orchestrator (`docker_build`) -/

/-- A binary target from the package metadata (`cargo_metadata::Target`),
reduced to the fields `docker_build` consults. -/
structure Target where
  name : String
  isBin : Bool
deriving DecidableEq

/-- The root package from the package metadata (`cargo_metadata::Package`). -/
structure Package where
  name : String
  targets : List Target
deriving DecidableEq

/-- `get_targets` from `docker.rs`: the binary targets of the root package. -/
def get_targets (root_pkg : Package) : List Target :=
  root_pkg.targets.filter (fun t => t.isBin)

/-- The externally observable events of one `docker_build` run: a `docker
version` readiness probe, the `docker --version` availability check, the
`docker build --output=<target_dir> ...` invocation (the only step that writes
the output directory), and a logged non-fatal warning. -/
inductive Event where
  | probe
  | versionCheck
  | dockerBuild
  | warn (msg : String)
deriving DecidableEq

/-- Container-engine invocations among the events. -/
def isEngineInvocation : Event → Bool
  | Event.probe => true
  | Event.versionCheck => true
  | Event.dockerBuild => true
  | Event.warn _ => false

/-- Whether an event is a logged warning. -/
def isWarn : Event → Bool
  | Event.warn _ => true
  | _ => false

/-- `BuildStatus` from `docker.rs`. -/
inductive BuildStatus where
  | Success
  | Skipped
deriving DecidableEq

/-- The errors `docker_build` can propagate. -/
inductive BuildError where
  | engine (e : EngineError)
  | canonicalizeFailed
  | metadataError
  | versionCmdFailed
  | manifestOutsideSrc
  | buildFailed
  | loadError (e : AnyhowError)
deriving DecidableEq

/-- The outcomes of the external calls made by `docker_build`: the value of the
`RISC0_SKIP_BUILD` environment variable (empty when unset, as returned by
`get_env_var`), the readiness-phase outcomes, `Path::canonicalize`, the
package-metadata query on the canonical manifest path, the exit status of
`docker --version`, the presence of `Cargo.lock` next to the manifest, the exit
status of `docker build`, and the identifier-computer externals. -/
structure BuildWorld where
  skipBuildVar : String
  probe : ProbeWorld
  canonicalize : String → Option String
  rootPkg : String → Option Package
  versionCmdOk : Bool
  lockPresent : Bool
  buildOk : Bool
  idWorld : IdWorld

/-- Rust `Path::strip_prefix`, modelled on `/`-separated strings. -/
def relPathUnder (base path : String) : Option String :=
  if path = base then some ""
  else if List.isPrefixOf (base ++ "/").data path.data then
    some (String.mk (path.data.drop (base ++ "/").data.length))
  else none

/-- The identifier loop at the end of `docker_build`: for each target of
`get_targets`, when it is a binary, resolve its ELF path and compute its image
identifier, propagating the first failure; returns the (target name, image id)
records that are printed. -/
def imageIdRecords (w : IdWorld) (src_dir pkg_name : String) :
    List Target → Except AnyhowError (List (String × String))
  | [] => Except.ok []
  | t :: ts =>
    if t.isBin then
      match compute_image_id w (get_elf_path src_dir pkg_name t.name) with
      | Except.error e => Except.error e
      | Except.ok id =>
        match imageIdRecords w src_dir pkg_name ts with
        | Except.error e => Except.error e
        | Except.ok rest => Except.ok ((t.name, id) :: rest)
    else imageIdRecords w src_dir pkg_name ts

/-- `docker_build` from `docker.rs`, step by step in source order: ensure the
engine is running (readiness probes), then the `RISC0_SKIP_BUILD` short
circuit, then canonicalize the manifest path and source root, query the package
metadata, run `docker --version`, check for `Cargo.lock` (absence only logs a
warning), normalize the package name, synthesize the Dockerfile into a fresh
temporary directory, run `docker build` (the only step writing the output
directory), and finally compute the image identifier of every binary target.
Returns the result together with the trace of observable events. -/
def docker_build (w : BuildWorld) (manifest_path src_dir : String)
    (features : List String) : Except BuildError BuildStatus × List Event :=
  let pr := ensure_docker_is_running w.probe
  let evts := List.replicate pr.2.1 Event.probe
  match pr.1 with
  | Except.error e => (Except.error (BuildError.engine e), evts)
  | Except.ok _ =>
    if w.skipBuildVar ≠ "" then (Except.ok BuildStatus.Skipped, evts)
    else
      match w.canonicalize manifest_path with
      | none => (Except.error BuildError.canonicalizeFailed, evts)
      | some manifest_path =>
        match w.canonicalize src_dir with
        | none => (Except.error BuildError.canonicalizeFailed, evts)
        | some src_dir =>
          match w.rootPkg manifest_path with
          | none => (Except.error BuildError.metadataError, evts)
          | some root_pkg =>
            let evts := evts ++ [Event.versionCheck]
            if !w.versionCmdOk then (Except.error BuildError.versionCmdFailed, evts)
            else
              let evts :=
                if w.lockPresent then evts
                else evts ++
                  [Event.warn ("Cargo.lock not found in path " ++
                    pathJoin manifest_path "../Cargo.lock")]
              let pkg_name := replaceDashUnderscore root_pkg.name
              match relPathUnder src_dir manifest_path with
              | none => (Except.error BuildError.manifestOutsideSrc, evts)
              | some rel_manifest_path =>
                let _dockerfile := create_dockerfile rel_manifest_path pkg_name features
                let evts := evts ++ [Event.dockerBuild]
                if !w.buildOk then (Except.error BuildError.buildFailed, evts)
                else
                  match imageIdRecords w.idWorld src_dir pkg_name (get_targets root_pkg) with
                  | Except.error e => (Except.error (BuildError.loadError e), evts)
                  | Except.ok _records => (Except.ok BuildStatus.Success, evts)

/- ### Helper lemmas -/

/-- Dash normalization is idempotent on characters. -/
theorem dashToUnderscore_idem (c : Char) :
    dashToUnderscore (dashToUnderscore c) = dashToUnderscore c := by
  unfold dashToUnderscore
  by_cases h : c = '-' <;> simp [h]

/-- Dash normalization is idempotent on character lists. -/
theorem mapDash_idem (l : List Char) :
    (l.map dashToUnderscore).map dashToUnderscore = l.map dashToUnderscore := by
  induction l with
  | nil => rfl
  | cons c rest ih =>
    simp only [List.map_cons, dashToUnderscore_idem, ih]

/-- Dash normalization is idempotent on strings. -/
theorem replaceDashUnderscore_idem (s : String) :
    replaceDashUnderscore (replaceDashUnderscore s) = replaceDashUnderscore s := by
  unfold replaceDashUnderscore
  exact congrArg String.mk (mapDash_idem s.data)

/- ### Claims about the build descriptor synthesizer -/

/-- C2: for every manifest path and package name, the compile command of the
synthesized build description (the last of its build-stage commands) with
features `["a", "b"]` contains the substring `--features a,b`, and with an
empty feature list it contains no `--features` substring at all. -/
theorem features_flag_threading (mp pkg : String) :
    (runCommands (stageInstrs "build" (create_dockerfile mp pkg ["a", "b"]).1) =
        [fetch_cmd, build_cmd ["a", "b"]] ∧
      strContains (build_cmd ["a", "b"]) "--features a,b" = true) ∧
    (runCommands (stageInstrs "build" (create_dockerfile mp pkg []).1) =
        [fetch_cmd, build_cmd []] ∧
      strContains (build_cmd []) "--features" = false) :=
  ⟨⟨rfl, by decide⟩, ⟨rfl, by decide⟩⟩

/-- C3: the artifact resolver is a pure path computation joining the source
root, the fixed output directory, the dash-normalized package name, and the
target name; in particular for package `my-pkg` and target `my_bin` it yields
exactly `<root>/target/riscv-guest/riscv32im-risc0-zkvm-elf/docker/my_pkg/my_bin`. -/
theorem elf_path_resolution (root pkg tgt : String) :
    get_elf_path root pkg tgt =
        root ++ "/" ++ TARGET_DIR ++ "/" ++ replaceDashUnderscore pkg ++ "/" ++ tgt ∧
    get_elf_path root "my-pkg" "my_bin" =
        root ++ "/target/riscv-guest/riscv32im-risc0-zkvm-elf/docker/my_pkg/my_bin" := by
  constructor
  · rfl
  · simp only [get_elf_path, pathJoin, String.append_assoc]
    rfl

/-- C4 (amended): for every input, the environment bindings of the build stage
of the synthesized description are exactly the binding of the manifest path
the synthesizer was given (in the orchestrator, the manifest path relative to
the source root), the fixed linker-flags string (embedding the fixed numeric
link base address `0x00200800` and the fixed codegen flags), and the explicit
build-output directory; the bindings are a function of the synthesizer's
declared inputs only, so no ambient host environment variable reaches the
compile step. -/
theorem build_stage_env_bindings (mp pkg : String) (features : List String) :
    envBindings (stageInstrs "build" (create_dockerfile mp pkg features).1) =
        [("CARGO_MANIFEST_PATH", mp), ("RUSTFLAGS", rustflags),
         ("CARGO_TARGET_DIR", "target")] ∧
    rustflags =
        "-C passes=loweratomic -C link-arg=-Ttext=0x00200800 -C link-arg=--fatal-warnings" ∧
    strContains rustflags "-C link-arg=-Ttext=0x00200800" = true :=
  ⟨rfl, by decide, by decide⟩

/-- C8: every synthesized build description emits exactly two command phases in
the build stage: the dependency-fetch command first, then the compile command. -/
theorem two_command_phases (mp pkg : String) (features : List String) :
    runCommands (stageInstrs "build" (create_dockerfile mp pkg features).1) =
        [fetch_cmd, build_cmd features] ∧
    fetch_cmd =
        "cargo +risc0 fetch --locked --target riscv32im-risc0-zkvm-elf --manifest-path $CARGO_MANIFEST_PATH" ∧
    build_cmd [] =
        "cargo +risc0 build --release --locked --target riscv32im-risc0-zkvm-elf --manifest-path $CARGO_MANIFEST_PATH" :=
  ⟨rfl, by decide, by decide⟩

/-- C9: package-name normalization in artifact path resolution is idempotent:
resolving with an already-normalized package name yields the same path, so the
orchestrator's pre-normalization before calling the resolver does not change
the resolved path. -/
theorem elf_path_normalization_idempotent (root pkg tgt : String) :
    get_elf_path root (replaceDashUnderscore pkg) tgt = get_elf_path root pkg tgt := by
  unfold get_elf_path
  rw [replaceDashUnderscore_idem]

/-- C10: for every input, the exclusion list emitted alongside the build
description is the same fixed five-pattern list, which in particular excludes
any file named `Dockerfile` anywhere in the tree. -/
theorem exclusion_list_fixed (mp pkg : String) (features : List String) :
    (create_dockerfile mp pkg features).2 = DOCKER_IGNORE ∧
    ignoreLines DOCKER_IGNORE =
        ["**/Dockerfile", "**/.git", "**/node_modules", "**/target", "**/tmp"] ∧
    "**/Dockerfile" ∈ ignoreLines DOCKER_IGNORE :=
  ⟨rfl, by decide, by decide⟩

/- ### Claims about the readiness prober -/

/-- One successful probe stops the retry loop immediately. -/
theorem retryBackoff_first_success (probe : Nat → Bool) (budget fuel n elapsed interval : Nat)
    (h : probe n = true) :
    retryBackoff probe budget fuel n elapsed interval = (true, n + 1, elapsed) := by
  unfold retryBackoff
  simp [h]

/-- When every probe fails, the retry loop reports failure and its elapsed time
never exceeds the budget. -/
theorem retryBackoff_all_fail (probe : Nat → Bool) (budget : Nat)
    (hall : ∀ k, probe k = false) :
    ∀ fuel n elapsed interval, elapsed ≤ budget →
      (retryBackoff probe budget fuel n elapsed interval).1 = false ∧
      (retryBackoff probe budget fuel n elapsed interval).2.2 ≤ budget := by
  intro fuel
  induction fuel with
  | zero =>
    intro n elapsed interval h
    unfold retryBackoff
    simp [hall n, h]
  | succ fuel' ih =>
    intro n elapsed interval h
    unfold retryBackoff
    by_cases h2 : elapsed + max 1 interval ≤ budget
    · simpa [hall n, h2] using ih (n + 1) (elapsed + max 1 interval) (2 * max 1 interval) h2
    · simp [hall n, h2, h]

/-- C5: the readiness prober stops and succeeds as soon as a probe succeeds
(in particular a first successful probe succeeds with no sleep); with a probe
that always fails it returns the engine-unavailable
error with elapsed time bounded by the budget (so it never hangs, the loop
being a total function); and when `which` cannot locate the engine command it
fails immediately with zero probes, with a failure distinct from the
not-yet-ready one. -/
theorem readiness_prober_behavior (w : ProbeWorld) (budget : Nat) :
    (w.probeOk 0 = true → check_docker w.probeOk budget = (Except.ok (), 1, 0)) ∧
    (∀ fuel n elapsed interval, w.probeOk n = true →
      retryBackoff w.probeOk budget fuel n elapsed interval = (true, n + 1, elapsed)) ∧
    ((∀ k, w.probeOk k = false) →
      (check_docker w.probeOk budget).1 = Except.error EngineError.notRunning ∧
      (check_docker w.probeOk budget).2.2 ≤ budget) ∧
    (w.whichDocker = false →
      ensure_docker_is_running w = (Except.error EngineError.notFound, 0, 0)) ∧
    (w.whichDocker = true → ensure_docker_is_running w = check_docker w.probeOk 5000) ∧
    EngineError.notFound ≠ EngineError.notRunning := by
  refine ⟨?_, ?_, ?_, ?_, ?_, by decide⟩
  · intro h
    unfold check_docker
    rw [retryBackoff_first_success w.probeOk budget (budget + 1) 0 0 INITIAL_INTERVAL h]
    rfl
  · intro fuel n elapsed interval h
    exact retryBackoff_first_success w.probeOk budget fuel n elapsed interval h
  · intro hall
    have h := retryBackoff_all_fail w.probeOk budget hall (budget + 1) 0 0 INITIAL_INTERVAL
      (Nat.zero_le budget)
    unfold check_docker
    simp [h.1, h.2]
  · intro h
    unfold ensure_docker_is_running
    simp [h]
  · intro h
    unfold ensure_docker_is_running
    simp [h]

/-- Witness for `readiness_prober_behavior` at concrete probe outcomes. -/
theorem readiness_prober_behavior_witness :
    check_docker (fun _ => true) 5000 = (Except.ok (), 1, 0) ∧
    (check_docker (fun _ => false) 5000).1 = Except.error EngineError.notRunning ∧
    (check_docker (fun _ => false) 5000).2.2 ≤ 5000 ∧
    ensure_docker_is_running ⟨false, fun _ => true⟩ =
      (Except.error EngineError.notFound, 0, 0) :=
  ⟨(readiness_prober_behavior ⟨true, fun _ => true⟩ 5000).1 rfl,
   ((readiness_prober_behavior ⟨true, fun _ => false⟩ 5000).2.2.1 (fun _ => rfl)).1,
   ((readiness_prober_behavior ⟨true, fun _ => false⟩ 5000).2.2.1 (fun _ => rfl)).2,
   (readiness_prober_behavior ⟨false, fun _ => true⟩ 5000).2.2.2.1 rfl⟩

/- ### Claims about the identifier computer -/

/-- A world in which the external loader rejects every binary. -/
def idFailWorld : IdWorld :=
  { read := fun _ => Except.ok []
    load_elf := fun _ => Except.error "bad magic"
    memory_image_new := fun p => Except.ok p
    compute_id := fun _ => "id" }

/-- C7 counterexample: on file `guest.elf`, a loader failure produces exactly
the error with context `unable to load elf`, whose rendered message does not
mention `guest.elf` — so the error does not identify which file failed, contrary
to the claim. -/
theorem compute_image_id_no_file_in_context :
    compute_image_id idFailWorld "guest.elf" =
        Except.error (AnyhowError.context "unable to load elf" "bad magic") ∧
    strContains (renderError (AnyhowError.context "unable to load elf" "bad magic"))
        "guest.elf" = false :=
  ⟨rfl, by decide⟩

/-- C7 (amended): the identifier computer reads the file's bytes, then invokes
the external loader and the external canonical-memory construction in
sequence; a failure of either external step is converted into a single error
carrying context identifying which step failed (`unable to load elf`,
`unable to create memory image`), while a read failure is propagated
unchanged; the file path is not part of the error's context. -/
theorem compute_image_id_step_contexts (w : IdWorld) (path : String) :
    (∀ e, w.read path = Except.error e →
      compute_image_id w path = Except.error (AnyhowError.raw e)) ∧
    (∀ elf e, w.read path = Except.ok elf → w.load_elf elf = Except.error e →
      compute_image_id w path =
        Except.error (AnyhowError.context "unable to load elf" e)) ∧
    (∀ elf p e, w.read path = Except.ok elf → w.load_elf elf = Except.ok p →
      w.memory_image_new p = Except.error e →
      compute_image_id w path =
        Except.error (AnyhowError.context "unable to create memory image" e)) ∧
    (∀ elf p img, w.read path = Except.ok elf → w.load_elf elf = Except.ok p →
      w.memory_image_new p = Except.ok img →
      compute_image_id w path = Except.ok (w.compute_id img)) := by
  refine ⟨?_, ?_, ?_, ?_⟩
  · intro e h1
    simp [compute_image_id, h1]
  · intro elf e h1 h2
    simp [compute_image_id, h1, h2]
  · intro elf p e h1 h2 h3
    simp [compute_image_id, h1, h2, h3]
  · intro elf p img h1 h2 h3
    simp [compute_image_id, h1, h2, h3]

/-- Witness for `compute_image_id_step_contexts` at a concrete world and path. -/
theorem compute_image_id_step_contexts_witness :
    compute_image_id idFailWorld "a.elf" =
      Except.error (AnyhowError.context "unable to load elf" "bad magic") :=
  (compute_image_id_step_contexts idFailWorld "a.elf").2.1 [] "bad magic" rfl rfl

/- ### Claims about the orchestrator -/

/-- An identifier-computer world in which every step succeeds. -/
def idOkWorld : IdWorld :=
  { read := fun _ => Except.ok [0]
    load_elf := fun _ => Except.ok 0
    memory_image_new := fun _ => Except.ok 0
    compute_id := fun _ => "0123" }

/-- A world in which `RISC0_SKIP_BUILD` is set to `1`, the engine binary is
found, and the first readiness probe succeeds. -/
def skipWorld : BuildWorld :=
  { skipBuildVar := "1"
    probe := ⟨true, fun _ => true⟩
    canonicalize := fun p => some p
    rootPkg := fun _ => some ⟨"my-pkg", [⟨"my_bin", true⟩]⟩
    versionCmdOk := true
    lockPresent := true
    buildOk := true
    idWorld := idOkWorld }

/-- C1 counterexample: with the skip variable set, the run returns `Skipped`,
yet a container engine invocation does occur — the readiness probe
(`docker version`) runs before the skip check is reached. -/
theorem skip_engine_invocation_counterexample :
    skipWorld.skipBuildVar ≠ "" ∧
    (docker_build skipWorld "/src/Cargo.toml" "/src" []).1 = Except.ok BuildStatus.Skipped ∧
    (docker_build skipWorld "/src/Cargo.toml" "/src" []).2.filter isEngineInvocation =
        [Event.probe] ∧
    (docker_build skipWorld "/src/Cargo.toml" "/src" []).2.filter isEngineInvocation ≠ [] :=
  ⟨by decide, rfl, rfl, by decide⟩

/-- C1 (amended): with the skip variable set to a non-empty value, the
readiness probes still run first; when the readiness check succeeds the call
returns `Skipped`, every event of the run is a readiness probe — in particular
no `docker build` and no `docker --version` invocation occurs — and the output
directory is left untouched (the `docker build` invocation being the only step
that writes it). -/
theorem skip_semantics (w : BuildWorld) (mp src : String) (fs : List String)
    (hskip : w.skipBuildVar ≠ "") :
    ((ensure_docker_is_running w.probe).1 = Except.ok () →
      docker_build w mp src fs =
        (Except.ok BuildStatus.Skipped,
         List.replicate (ensure_docker_is_running w.probe).2.1 Event.probe)) ∧
    (∀ e ∈ (docker_build w mp src fs).2, e = Event.probe) ∧
    Event.dockerBuild ∉ (docker_build w mp src fs).2 ∧
    Event.versionCheck ∉ (docker_build w mp src fs).2 := by
  have hmem : ∀ e ∈ (docker_build w mp src fs).2, e = Event.probe := by
    intro e he
    rcases hpr : (ensure_docker_is_running w.probe).1 with err | u
    · simp [docker_build, hpr] at he
      exact he.2
    · simp [docker_build, hpr, hskip] at he
      exact he.2
  refine ⟨?_, hmem, ?_, ?_⟩
  · intro hpr
    simp [docker_build, hpr, hskip]
  · intro hd
    exact absurd (hmem Event.dockerBuild hd) (by decide)
  · intro hv
    exact absurd (hmem Event.versionCheck hv) (by decide)

/-- Witness for `skip_semantics` at a concrete world. -/
theorem skip_semantics_witness :
    docker_build skipWorld "/src/Cargo.toml" "/src" [] =
      (Except.ok BuildStatus.Skipped, [Event.probe]) :=
  ((skip_semantics skipWorld "/src/Cargo.toml" "/src" [] (by decide)).1 rfl).trans rfl

/-- The result and the non-warning events of `docker_build` do not depend on
the presence of `Cargo.lock`. -/
theorem docker_build_lock_indep (w : BuildWorld) (mp src : String) (fs : List String) :
    (docker_build {w with lockPresent := false} mp src fs).1 =
      (docker_build {w with lockPresent := true} mp src fs).1 ∧
    (docker_build {w with lockPresent := false} mp src fs).2.filter (fun e => !isWarn e) =
      (docker_build {w with lockPresent := true} mp src fs).2.filter (fun e => !isWarn e) := by
  rcases hpr : (ensure_docker_is_running w.probe).1 with err | u
  · constructor <;> simp [docker_build, hpr]
  · by_cases hskip : w.skipBuildVar = ""
    · rcases hm : w.canonicalize mp with _ | m
      · constructor <;> simp [docker_build, hpr, hskip, hm]
      · rcases hs : w.canonicalize src with _ | s
        · constructor <;> simp [docker_build, hpr, hskip, hm, hs]
        · rcases hpkg : w.rootPkg m with _ | pkg
          · constructor <;> simp [docker_build, hpr, hskip, hm, hs, hpkg]
          · by_cases hv : w.versionCmdOk = true
            · rcases hrel : relPathUnder s m with _ | rel
              · constructor <;>
                  simp [docker_build, hpr, hskip, hm, hs, hpkg, hv, hrel, isWarn]
              · by_cases hb : w.buildOk = true
                · rcases hrec : imageIdRecords w.idWorld s
                      (replaceDashUnderscore pkg.name) (get_targets pkg) with e | recs
                  · constructor <;>
                      simp [docker_build, hpr, hskip, hm, hs, hpkg, hv, hrel, hb, hrec, isWarn]
                  · constructor <;>
                      simp [docker_build, hpr, hskip, hm, hs, hpkg, hv, hrel, hb, hrec, isWarn]
                · constructor <;>
                    simp [docker_build, hpr, hskip, hm, hs, hpkg, hv, hrel, hb, isWarn]
            · constructor <;> simp [docker_build, hpr, hskip, hm, hs, hpkg, hv, isWarn]
    · constructor <;> simp [docker_build, hpr, hskip]

/-- A successful `docker_build` run implies every fallible step other than the
lockfile check succeeded. -/
theorem docker_build_success_requires (w : BuildWorld) (mp src : String) (fs : List String)
    (h : (docker_build w mp src fs).1 = Except.ok BuildStatus.Success) :
    (ensure_docker_is_running w.probe).1 = Except.ok () ∧
    w.versionCmdOk = true ∧ w.buildOk = true ∧
    ∃ m s pkg recs, w.canonicalize mp = some m ∧ w.canonicalize src = some s ∧
      w.rootPkg m = some pkg ∧ (relPathUnder s m).isSome ∧
      imageIdRecords w.idWorld s (replaceDashUnderscore pkg.name) (get_targets pkg) =
        Except.ok recs := by
  rcases hpr : (ensure_docker_is_running w.probe).1 with err | u
  · simp [docker_build, hpr] at h
  · by_cases hskip : w.skipBuildVar = ""
    · rcases hm : w.canonicalize mp with _ | m
      · simp [docker_build, hpr, hskip, hm] at h
      · rcases hs : w.canonicalize src with _ | s
        · simp [docker_build, hpr, hskip, hm, hs] at h
        · rcases hpkg : w.rootPkg m with _ | pkg
          · simp [docker_build, hpr, hskip, hm, hs, hpkg] at h
          · by_cases hv : w.versionCmdOk = true
            · rcases hrel : relPathUnder s m with _ | rel
              · simp [docker_build, hpr, hskip, hm, hs, hpkg, hv, hrel] at h
              · by_cases hb : w.buildOk = true
                · rcases hrec : imageIdRecords w.idWorld s
                      (replaceDashUnderscore pkg.name) (get_targets pkg) with e | recs
                  · simp [docker_build, hpr, hskip, hm, hs, hpkg, hv, hrel, hb, hrec] at h
                  · exact ⟨rfl, hv, hb, m, s, pkg, recs, rfl, rfl, hpkg,
                      by simp [hrel], hrec⟩
                · simp [docker_build, hpr, hskip, hm, hs, hpkg, hv, hrel, hb] at h
            · simp [docker_build, hpr, hskip, hm, hs, hpkg, hv] at h
    · simp [docker_build, hpr, hskip] at h

/-- C6: absence of the dependency-lock file never produces a hard failure: the
result of the run and its non-warning events (hence the whole engine
interaction) are identical with and without `Cargo.lock`; and the lockfile
check is the only one whose error is not propagated, since a successful run
requires every other fallible step to have succeeded. -/
theorem lockfile_absence_warns_only (w : BuildWorld) (mp src : String) (fs : List String) :
    (docker_build {w with lockPresent := false} mp src fs).1 =
      (docker_build {w with lockPresent := true} mp src fs).1 ∧
    (docker_build {w with lockPresent := false} mp src fs).2.filter (fun e => !isWarn e) =
      (docker_build {w with lockPresent := true} mp src fs).2.filter (fun e => !isWarn e) ∧
    ((docker_build w mp src fs).1 = Except.ok BuildStatus.Success →
      (ensure_docker_is_running w.probe).1 = Except.ok () ∧
      w.versionCmdOk = true ∧ w.buildOk = true ∧
      ∃ m s pkg recs, w.canonicalize mp = some m ∧ w.canonicalize src = some s ∧
        w.rootPkg m = some pkg ∧ (relPathUnder s m).isSome ∧
        imageIdRecords w.idWorld s (replaceDashUnderscore pkg.name) (get_targets pkg) =
          Except.ok recs) :=
  ⟨(docker_build_lock_indep w mp src fs).1, (docker_build_lock_indep w mp src fs).2,
   fun h => docker_build_success_requires w mp src fs h⟩

/-- A world in which every step succeeds and `Cargo.lock` is absent. -/
def okWorld : BuildWorld :=
  { skipBuildVar := ""
    probe := ⟨true, fun _ => true⟩
    canonicalize := fun p => some p
    rootPkg := fun _ => some ⟨"my-pkg", [⟨"my_bin", true⟩]⟩
    versionCmdOk := true
    lockPresent := false
    buildOk := true
    idWorld := idOkWorld }

/-- Witness for `lockfile_absence_warns_only` at a concrete world: without the
lock file the run still succeeds, and the success hypothesis of the third part
is discharged by evaluation. -/
theorem lockfile_absence_warns_only_witness :
    (docker_build {okWorld with lockPresent := false} "/src/Cargo.toml" "/src" []).1 =
      (docker_build {okWorld with lockPresent := true} "/src/Cargo.toml" "/src" []).1 ∧
    okWorld.versionCmdOk = true ∧ okWorld.buildOk = true :=
  ⟨(lockfile_absence_warns_only okWorld "/src/Cargo.toml" "/src" []).1,
   ((lockfile_absence_warns_only okWorld "/src/Cargo.toml" "/src" []).2.2 rfl).2.1,
   ((lockfile_absence_warns_only okWorld "/src/Cargo.toml" "/src" []).2.2 rfl).2.2.1⟩

/-- C4 counterexample: the manifest path bound by the build stage is the path
relative to the source root — `docker_build` strips the source-root prefix
before synthesizing the description — not an absolute path: for the manifest
`/src/guest/Cargo.toml` under source root `/src`, the bound value is
`guest/Cargo.toml`, which does not begin with the path separator. -/
theorem manifest_binding_not_absolute :
    relPathUnder "/src" "/src/guest/Cargo.toml" = some "guest/Cargo.toml" ∧
    envBindings (stageInstrs "build"
        (create_dockerfile "guest/Cargo.toml" "my_pkg" []).1) =
      [("CARGO_MANIFEST_PATH", "guest/Cargo.toml"), ("RUSTFLAGS", rustflags),
       ("CARGO_TARGET_DIR", "target")] ∧
    "guest/Cargo.toml".data.head? ≠ some '/' :=
  ⟨by decide, rfl, by decide⟩
